import Mathlib

/-!
Shallow embedding of the MjengoLink payments / projects core.

The definitions below are translated from the repository's Python source:
`payments/mpesa/callbacks.py`, `payments/mpesa/client.py`,
`payments/views.py`, `payments/forms.py`, `payments/signals.py`,
`payments/models.py`, `projects/views.py`, `projects/signals.py`,
`projects/models.py`, and `core/utils/mpesa_utilis.py`.

Conventions of the embedding:
* money (Django `DecimalField`) is modelled as `ℚ`;
* timestamps (`timezone.now()`) are modelled as a `ℕ` parameter `now`;
* Django model rows are records, the database is lists of rows, and a
  `save()` replaces the row with the same id (signal receivers attached to
  the save are folded into the save functions);
* external effects (e-mail, logging, the HTTP gateway, hmac-sha256) are
  either dropped (when no claim depends on them) or passed in as explicit
  parameters;
* runtime errors of the Python/Django layer that the source can actually
  hit (FieldError for an unknown column in `QuerySet.update`, NameError for
  an unresolved module-level name) are modelled by checking the statically
  known column/import lists of the source, and carry rollback semantics
  where the source wraps the operation in `transaction.atomic`.
-/

namespace MjengoLink

/-- Strip every non-digit character (`re.sub(r'\D', '', phone_number)`); a
Python `str` is modelled as its list of characters. -/
def stripNonDigits (s : String) : List Char :=
  s.toList.filter Char.isDigit

/-- MpesaClient.format_phone_number (payments/mpesa/client.py lines 111-141).
The helper `format_phone_for_mpesa` in core/utils/mpesa_utilis.py lines
236-266 is character-for-character the same function. Python `None`
(invalid) is modelled as `none`. -/
def format_phone_number (phoneNumber : String) : Option String :=
  let digits := stripNonDigits phoneNumber
  if digits.length < 9 ∨ digits.length > 12 then
    none
  else if ['0'].isPrefixOf digits then
    some (String.mk (['2', '5', '4'] ++ digits.drop 1))
  else if ['2', '5', '4'].isPrefixOf digits then
    some (String.mk digits)
  else if digits.length = 9 then
    some (String.mk (['2', '5', '4'] ++ digits))
  else
    none

/-- Phone normalization rule as worded by the specification: strip all
non-digit characters; reject if the digit count is outside [9,12]; replace a
single leading '0' by the country code 254; accept a number already starting
with the country code as-is; prepend the country code to an exactly-9-digit
number; reject everything else. -/
def phoneRuleFromSpec (s : String) : Option String :=
  let digits := stripNonDigits s
  let n := digits.length
  if 9 ≤ n ∧ n ≤ 12 then
    if ['0'].isPrefixOf digits then some (String.mk (['2', '5', '4'] ++ digits.drop 1))
    else if ['2', '5', '4'].isPrefixOf digits then some (String.mk digits)
    else if n = 9 then some (String.mk (['2', '5', '4'] ++ digits))
    else none
  else none

/-! ## Data model (payments/models.py, projects/models.py) -/

/-- Scalar JSON leaf value occurring in callback metadata items: the M-Pesa
payload mixes strings (receipt number) and numbers (amount, phone). -/
inductive JVal
  | str (s : String)
  | num (q : ℚ)
deriving DecidableEq, Repr

/-- Python truthiness of a metadata value ('' and 0 are falsy). -/
def JVal.truthy : JVal → Bool
  | .str s => decide (s ≠ "")
  | .num q => decide (q ≠ 0)

/-- Text rendering of a metadata value, for storage into text columns. -/
def JVal.text : JVal → String
  | .str s => s
  | .num q => if q.den = 1 then toString q.num else toString q.num ++ "/" ++ toString q.den

/-- Payment row (payments/models.py class Payment). Only columns the
modelled flows read or write are carried. -/
structure Payment where
  id : ℕ
  transactionId : String := ""
  payerId : ℕ := 0
  recipientId : ℕ := 0
  projectId : Option ℕ := none
  milestoneId : Option ℕ := none
  amount : ℚ := 0
  serviceFee : ℚ := 0
  netAmount : ℚ := 0
  paymentMethod : String := ""
  paymentType : String := ""
  status : String := "pending"
  mpesaCode : String := ""
  mpesaNumber : String := ""
  mpesaReceipt : String := ""
  transactionReference : String := ""
  notes : String := ""
  processedAt : Option ℕ := none
  completedAt : Option ℕ := none
  failureReason : String := ""
  retryCount : ℕ := 0
deriving DecidableEq, Repr

/-- ProjectMilestone row (projects/models.py class ProjectMilestone). The
model defines no `paid` boolean attribute — only the `status` value "paid". -/
structure Milestone where
  id : ℕ
  projectId : ℕ := 0
  amount : ℚ := 0
  status : String := "pending"
  completedAt : Option ℕ := none
  approvedAt : Option ℕ := none
deriving DecidableEq, Repr

/-- Project row (projects/models.py class Project). The model defines
`final_price`; it defines no `final_budget` column. -/
structure Project where
  id : ℕ
  homeownerId : ℕ := 0
  status : String := "draft"
  budgetMin : ℚ := 0
  budgetMax : ℚ := 0
  assignedToId : Option ℕ := none
  finalPrice : Option ℚ := none
  assignedAt : Option ℕ := none
  completedAt : Option ℕ := none
deriving DecidableEq, Repr

/-- Bid row (projects/models.py class Bid). `accepted_at` is the only
acceptance/rejection timestamp column the model defines. -/
structure Bid where
  id : ℕ
  projectId : ℕ := 0
  artisanId : ℕ := 0
  amount : ℚ := 0
  status : String := "pending"
  acceptedAt : Option ℕ := none
deriving DecidableEq, Repr

/-- Wallet row (payments/models.py class Wallet). -/
structure Wallet where
  userId : ℕ
  balance : ℚ := 0
  holdBalance : ℚ := 0
  totalDeposited : ℚ := 0
  totalWithdrawn : ℚ := 0
  isActive : Bool := true
deriving DecidableEq, Repr

/-- Wallet.available_balance property (payments/models.py lines 260-262). -/
def Wallet.availableBalance (w : Wallet) : ℚ :=
  w.balance - w.holdBalance

/-- Transaction row (payments/models.py class Transaction). -/
structure Txn where
  id : ℕ
  walletUserId : ℕ := 0
  userId : ℕ := 0
  transactionType : String := ""
  amount : ℚ := 0
  previousBalance : ℚ := 0
  newBalance : ℚ := 0
  description : String := ""
  reference : String := ""
deriving DecidableEq, Repr

/-- PaymentDispute row (payments/models.py class PaymentDispute). -/
structure Dispute where
  id : ℕ
  paymentId : ℕ := 0
  projectId : Option ℕ := none
  raisedById : ℕ := 0
  raisedAgainstId : ℕ := 0
  category : String := ""
  severity : String := "medium"
  status : String := "open"
  description : String := ""
deriving DecidableEq, Repr

/-- The slice of the database the modelled flows touch. -/
structure DbState where
  payments : List Payment := []
  milestones : List Milestone := []
  projects : List Project := []
  bids : List Bid := []
  wallets : List Wallet := []
  transactions : List Txn := []
  disputes : List Dispute := []
deriving DecidableEq, Repr

/-- Row update by primary key (the effect of `instance.save()` on an
existing row). -/
def replacePayment (l : List Payment) (p : Payment) : List Payment :=
  l.map fun q => if q.id = p.id then p else q

def replaceMilestone (l : List Milestone) (m : Milestone) : List Milestone :=
  l.map fun x => if x.id = m.id then m else x

def replaceProject (l : List Project) (pr : Project) : List Project :=
  l.map fun x => if x.id = pr.id then pr else x

def replaceBid (l : List Bid) (b : Bid) : List Bid :=
  l.map fun x => if x.id = b.id then b else x

def replaceWallet (l : List Wallet) (w : Wallet) : List Wallet :=
  l.map fun x => if x.userId = w.userId then w else x

def getPayment (st : DbState) (i : ℕ) : Option Payment :=
  st.payments.find? fun p => p.id = i

def getMilestone (st : DbState) (i : ℕ) : Option Milestone :=
  st.milestones.find? fun m => m.id = i

def getProject (st : DbState) (i : ℕ) : Option Project :=
  st.projects.find? fun p => p.id = i

def getBid (st : DbState) (i : ℕ) : Option Bid :=
  st.bids.find? fun b => b.id = i

def getWallet (st : DbState) (u : ℕ) : Option Wallet :=
  st.wallets.find? fun w => w.userId = u

/-! ## Saves and signal receivers (payments/signals.py, projects/signals.py) -/

/-- Runtime errors of the Python/Django layer that the modelled flows can
actually raise. -/
inductive DjangoError
  | fieldError (column : String)
  | nameError (name : String)
  | attributeError (attr : String)
deriving DecidableEq, Repr

/-- Payment.save (payments/models.py lines 74-82): recompute
`net_amount = amount - service_fee` on every save. The branch generating a
fresh uuid transaction id only runs for an empty `transaction_id`, which no
modelled flow produces. -/
def paymentSaveRow (p : Payment) : Payment :=
  { p with netAmount := p.amount - p.serviceFee }

/-- pre_save update_milestone_status (projects/signals.py lines 78-91):
stamp `completed_at` on a transition into status "completed". -/
def milestonePreSave (old : Option Milestone) (m : Milestone) (now : ℕ) : Milestone :=
  match old with
  | some o =>
      if o.status ≠ "completed" ∧ m.status = "completed" then
        { m with completedAt := some now }
      else m
  | none =>
      if m.status = "completed" then { m with completedAt := some now } else m

/-- ProjectMilestone save together with its signal receivers.
post_save handle_milestone_payment (projects/signals.py lines 93-107)
evaluates `instance.paid` whenever the saved status is "completed";
ProjectMilestone defines no `paid` attribute, so that save raises
AttributeError after the row write. For every other status the receiver's
short-circuit `and` skips the attribute access. -/
def milestoneSave (st : DbState) (m : Milestone) (now : ℕ) : DbState × Option DjangoError :=
  let old := st.milestones.find? fun x => x.id = m.id
  let m1 := milestonePreSave old m now
  let st1 := { st with milestones := replaceMilestone st.milestones m1 }
  if m1.status = "completed" then (st1, some (.attributeError "paid")) else (st1, none)

/-- post_save update_project_status_on_save (projects/signals.py lines
13-26): any save of an existing Project whose status is "assigned" or
"in_progress" transitions it to "completed" (stamping `completed_at`) as
soon as the project has milestones and every milestone counts as status
"completed". -/
def update_project_status_on_save (st : DbState) (pr : Project) (now : ℕ) : DbState × Project :=
  if pr.status = "assigned" ∨ pr.status = "in_progress" then
    let ms := st.milestones.filter fun m => m.projectId = pr.id
    if ms.length ≠ 0 then
      let completedCount := (ms.filter fun m => m.status = "completed").length
      if completedCount = ms.length then
        let pr1 := { pr with status := "completed", completedAt := some now }
        ({ st with projects := replaceProject st.projects pr1 }, pr1)
      else (st, pr)
    else (st, pr)
  else (st, pr)

/-- Project.save of an existing row followed by its post_save receiver; the
receiver's own nested save re-fires the receiver with status "completed",
which its guard ignores, so one application is exact. -/
def projectSave (st : DbState) (pr : Project) (now : ℕ) : DbState :=
  let st1 := { st with projects := replaceProject st.projects pr }
  (update_project_status_on_save st1 pr now).1

/-- Payment.save of an existing row together with the pre_save receiver
handle_payment_status_change (payments/signals.py lines 32-52): when the
status changes to "completed" and the payment references a milestone, the
receiver sets that milestone's status to "paid" and saves it (a save that
raises nothing, since "paid" is not "completed"). The e-mail notification
is an external effect and is not modelled; a milestone id pointing at no
row would raise DoesNotExist inside the receiver's own try/except and is
skipped. -/
def paymentSave (st : DbState) (p : Payment) (now : ℕ) : DbState :=
  let old := st.payments.find? fun q => q.id = p.id
  let st1 : DbState :=
    match old with
    | some o =>
        if o.status ≠ p.status ∧ p.status = "completed" then
          match p.milestoneId with
          | some mid =>
              match st.milestones.find? (fun m => m.id = mid) with
              | some m => (milestoneSave st { m with status := "paid" } now).1
              | none => st
          | none => st
        else st
    | none => st
  { st1 with payments := replacePayment st1.payments (paymentSaveRow p) }

/-! ## M-Pesa callback handler (payments/mpesa/callbacks.py) -/

/-- One entry of `CallbackMetadata.Item`; both keys may be absent. -/
structure MetaItem where
  name : Option String := none
  value : Option JVal := none
deriving DecidableEq, Repr

/-- The `Body.stkCallback` object as parsed from JSON: every field may be
absent. A request body missing the `Body` or `stkCallback` keys is the
value with all fields `none` (the source's chained `.get` defaults). -/
structure StkCallbackJson where
  merchantRequestId : Option String := none
  checkoutRequestId : Option String := none
  resultCode : Option Int := none
  resultDesc : Option String := none
  items : Option (List MetaItem) := none
deriving DecidableEq, Repr

/-- Outcome of `json.loads(request.body)`. -/
inductive CallbackBody
  | malformed
  | parsed (cb : StkCallbackJson)
deriving DecidableEq, Repr

/-- The HTTP request reaching the callback endpoint. -/
structure CallbackRequest where
  signatureHeader : String := ""
  rawBody : String := ""
  body : CallbackBody := .malformed
deriving DecidableEq, Repr

/-- Django settings consumed by the callback handler. -/
structure MpesaSettings where
  validationKey : String := ""
  debug : Bool := false
deriving DecidableEq, Repr

/-- JSON responses the handler produces: either the
`{'success': False, 'error': ...}` signature-rejection shape or the
`{'ResultCode': ..., 'ResultDesc': ...}` acknowledgement shape, each with
its HTTP status. -/
inductive CbResponse
  | sigError (httpStatus : ℕ) (errorMsg : String)
  | ack (httpStatus : ℕ) (resultCode : Int) (resultDesc : String)
deriving DecidableEq, Repr

/-- validate_callback_signature (payments/mpesa/callbacks.py lines 21-58).
The hmac-sha256 hex digest is an external primitive, passed in as
`hmacHex key body`. -/
def validate_callback_signature (hmacHex : String → String → String)
    (settings : MpesaSettings) (req : CallbackRequest) : Bool × String :=
  if req.signatureHeader = "" then (false, "Missing signature")
  else if settings.validationKey = "" then
    if settings.debug then (true, "Skipped in development")
    else (false, "Validation key not configured")
  else if req.signatureHeader = hmacHex settings.validationKey req.rawBody then
    (true, "Signature valid")
  else (false, "Invalid signature")

/-- Does `needle` occur as a contiguous slice of the list (Python
`needle in hay`; the empty needle always matches). -/
def hasSub (needle : List Char) : List Char → Bool
  | [] => needle.isEmpty
  | c :: t => needle.isPrefixOf (c :: t) || hasSub needle t

/-- Django `column__icontains=needle`: case-insensitive substring match. -/
def icontainsL (haystack : String) (needle : List Char) : Bool :=
  hasSub (needle.map Char.toLower) (haystack.toList.map Char.toLower)

/-- Outcome of a `Payment.objects.get(...)` lookup. -/
inductive LookupResult
  | found (p : Payment)
  | notFound
  | multiple
deriving DecidableEq, Repr

/-- Payment lookup of the callback handler (callbacks.py lines 115-132):
first `mpesa_code__icontains=checkout_request_id[:20]`, then, on
DoesNotExist, `transaction_reference__icontains=merchant_request_id[:20]`.
A lookup matching more than one row raises MultipleObjectsReturned, which
only the handler's blanket `except Exception` catches. -/
def findPaymentForCallback (payments : List Payment)
    (checkoutRequestId merchantRequestId : String) : LookupResult :=
  match payments.filter (fun p => icontainsL p.mpesaCode (checkoutRequestId.toList.take 20)) with
  | [p] => .found p
  | [] =>
      match payments.filter
          (fun p => icontainsL p.transactionReference (merchantRequestId.toList.take 20)) with
      | [p] => .found p
      | [] => .notFound
      | _ => .multiple
  | _ => .multiple

/-- Build the metadata dict (callbacks.py lines 110-113): each item
contributes `item.get('Name','') ↦ item.get('Value','')`. -/
def buildMetadata (items : List MetaItem) : List (String × JVal) :=
  items.map fun it => (it.name.getD "", it.value.getD (.str ""))

/-- Python dict lookup with default: a later duplicate key overwrites an
earlier one. -/
def metaGet (meta : List (String × JVal)) (key : String) (dflt : JVal) : JVal :=
  match meta.reverse.find? (fun kv => kv.1 = key) with
  | some kv => kv.2
  | none => dflt

/-- Python `payment.amount != amount` where `amount` came from JSON: a
numeric value compares numerically, a string value is never equal to a
Decimal. -/
def amountDiffers (paymentAmount : ℚ) : JVal → Bool
  | .num q => decide (paymentAmount ≠ q)
  | .str _ => true

/-- The notes text written by the success branch (callbacks.py lines
141-148). -/
def successNotes (resultDesc : String) (paymentAmount : ℚ) (amountJv : JVal) : String :=
  let base := "M-Pesa callback: " ++ resultDesc
  if amountJv.truthy && amountDiffers paymentAmount amountJv then
    base ++ " | Amount from callback: " ++ amountJv.text
  else base

/-- The payment row as mutated by the success branch (callbacks.py lines
135-152) before its save. -/
def successRow (payment : Payment) (meta : List (String × JVal))
    (resultDesc : String) (now : ℕ) : Payment :=
  let amountJv := metaGet meta "Amount" (.num 0)
  let phoneJv := metaGet meta "PhoneNumber" (.str "")
  { payment with
    status := "completed"
    mpesaReceipt := (metaGet meta "MpesaReceiptNumber" (.str "")).text
    processedAt := some now
    completedAt := some now
    notes := successNotes resultDesc payment.amount amountJv
    mpesaNumber :=
      if phoneJv.truthy && decide (payment.mpesaNumber = "") then phoneJv.text
      else payment.mpesaNumber }

/-- Success branch of the callback handler (callbacks.py lines 134-173):
save the completed payment, then — when the payment references both a
project and a milestone — mark the milestone "paid" (stamping
`approved_at`), re-check whether every milestone of the project is "paid",
and if so complete the project. A referenced row that does not exist would
raise DoesNotExist into the blanket `except`, after the writes already
performed (the handler opens no transaction). -/
def processSuccess (st : DbState) (payment : Payment) (meta : List (String × JVal))
    (resultDesc : String) (now : ℕ) : DbState × CbResponse :=
  let p1 := successRow payment meta resultDesc now
  let st1 := paymentSave st p1 now
  match p1.projectId, p1.milestoneId with
  | some pjId, some msId =>
      (match st1.milestones.find? (fun m => m.id = msId) with
       | some m =>
           let m1 : Milestone := { m with status := "paid", approvedAt := some now }
           let st2 := (milestoneSave st1 m1 now).1
           let projMs := st2.milestones.filter fun x => x.projectId = pjId
           if projMs.all (fun x => x.status = "paid") then
             match st2.projects.find? (fun pr => pr.id = pjId) with
             | some pr =>
                 let pr1 : Project := { pr with status := "completed", completedAt := some now }
                 (projectSave st2 pr1 now, .ack 200 0 "Success")
             | none => (st2, .ack 500 1 "Server error")
           else (st2, .ack 200 0 "Success")
       | none => (st1, .ack 500 1 "Server error"))
  | _, _ => (st1, .ack 200 0 "Success")

/-- process_mpesa_callback (payments/mpesa/callbacks.py lines 63-202). -/
def process_mpesa_callback (hmacHex : String → String → String)
    (settings : MpesaSettings) (req : CallbackRequest) (now : ℕ)
    (st : DbState) : DbState × CbResponse :=
  let v := validate_callback_signature hmacHex settings req
  if v.1 = false then (st, .sigError 400 v.2)
  else
    match req.body with
    | .malformed => (st, .ack 400 1 "Invalid JSON")
    | .parsed cb =>
        let merchantRequestId := cb.merchantRequestId.getD ""
        let checkoutRequestId := cb.checkoutRequestId.getD ""
        let resultCode := cb.resultCode.getD 1
        let resultDesc := cb.resultDesc.getD ""
        let meta := buildMetadata (cb.items.getD [])
        match findPaymentForCallback st.payments checkoutRequestId merchantRequestId with
        | .notFound => (st, .ack 200 0 "Callback received but payment not found")
        | .multiple => (st, .ack 500 1 "Server error")
        | .found payment =>
            if resultCode = 0 then
              processSuccess st payment meta resultDesc now
            else
              let p1 : Payment :=
                { payment with
                  status := "failed", failureReason := resultDesc, processedAt := some now }
              (paymentSave st p1 now, .ack 200 0 "Success")

/-! ## Payment creation fee (payments/views.py PaymentCreateView) -/

/-- Fee computation of PaymentCreateView.form_valid (payments/views.py
lines 52-54): `service_fee = amount * Decimal('0.05')` and
`net_amount = amount - service_fee`. Returns (service_fee, net_amount). -/
def paymentCreateFee (amount : ℚ) : ℚ × ℚ :=
  let fee := amount * (5 / 100)
  (fee, amount - fee)

/-! ## Wallet withdrawal (payments/forms.py, payments/views.py) -/

/-- Withdrawal rejection reasons; the source reports them as form
ValidationError messages. -/
inductive WithdrawError
  | belowMinimum
  | amountNotPositive
  | insufficientFunds
  | aboveMaximum
  | walletMissing
deriving DecidableEq, Repr

/-- WalletWithdrawalForm amount validation (payments/forms.py lines
265-276 and 299-321): the field's MinValueValidator(100) runs first;
clean_amount then checks positivity, then the wallet's available balance,
then the 50,000 maximum, in that order. -/
def clean_amount (wallet : Option Wallet) (amount : ℚ) : Except WithdrawError ℚ :=
  if amount < 100 then .error .belowMinimum
  else if amount ≤ 0 then .error .amountNotPositive
  else
    match wallet with
    | some w =>
        if amount > w.availableBalance then .error .insufficientFunds
        else if amount > 50000 then .error .aboveMaximum
        else .ok amount
    | none => .error .walletMissing

/-- InitiateWithdrawalView.form_valid (payments/views.py lines 448-503) on
top of the form validation: on any form error the view re-renders the form
and the ledger is untouched; on success it re-checks the available
balance, appends one withdrawal Transaction and debits the wallet inside
one transaction.atomic block. The optional M-Pesa payout call that follows
changes no wallet or transaction row and is not modelled. `txnId` stands
for the database-assigned primary key of the new row. -/
def initiateWithdrawal (st : DbState) (userId : ℕ) (amount : ℚ)
    (method accountDetails : String) (txnId : ℕ) : DbState × Except WithdrawError Txn :=
  let wallet := getWallet st userId
  match clean_amount wallet amount with
  | .error e => (st, .error e)
  | .ok a =>
      match wallet with
      | none => (st, .error .walletMissing)
      | some w =>
          if a > w.availableBalance then (st, .error .insufficientFunds)
          else
            let t : Txn :=
              { id := txnId, walletUserId := userId, userId := userId
                transactionType := "withdrawal", amount := a
                previousBalance := w.balance, newBalance := w.balance - a
                description := "Withdrawal to " ++ method, reference := accountDetails }
            let w1 : Wallet :=
              { w with balance := w.balance - a, totalWithdrawn := w.totalWithdrawn + a }
            ({ st with wallets := replaceWallet st.wallets w1
                       transactions := st.transactions ++ [t] },
             .ok t)

/-! ## Dispute form (payments/forms.py, payments/views.py) -/

/-- The names payments/forms.py imports at module level (its lines 11-18).
`Q` is not among them. -/
def formsPyImportedNames : List String :=
  ["forms", "MinValueValidator", "ValidationError", "Decimal",
   "Payment", "Invoice", "PaymentDispute", "DisputeEvidence", "Wallet",
   "Project", "ProjectMilestone", "UserProfile"]

/-- Failures of the dispute-creation flow. -/
inductive DisputeFormError
  | nameError (n : String)
  | invalidPartyNotOnPayment
  | invalidPartySelf
deriving DecidableEq, Repr

/-- DisputeForm field construction (payments/forms.py lines 174-190): when
a user is supplied, the querysets are filtered with `Q(...)`; the module
never imports `Q`, so the first such reference raises NameError. -/
def disputeFormInit (user : Option ℕ) : Except DisputeFormError Unit :=
  match user with
  | some _ =>
      if formsPyImportedNames.contains "Q" then .ok ()
      else .error (.nameError "Q")
  | none => .ok ()

/-- DisputeForm.clean (payments/forms.py lines 192-211), for a submission
carrying both a payment and a raised_against party: raised_against must be
the payment's payer or recipient and must differ from the submitting
user. -/
def disputeFormClean (payerId recipientId raisedAgainst user : ℕ) :
    Except DisputeFormError Unit :=
  if raisedAgainst ≠ payerId ∧ raisedAgainst ≠ recipientId then
    .error .invalidPartyNotOnPayment
  else if raisedAgainst = user then
    .error .invalidPartySelf
  else .ok ()

/-- Outcome of DisputeCreateView. -/
inductive DisputeOutcome
  | created (d : Dispute)
  | formError (e : DisputeFormError)
deriving DecidableEq, Repr

/-- DisputeCreateView (payments/views.py lines 281-324) composed with the
form: the view always constructs DisputeForm with user = request.user, so
the form's field construction runs before any validation; if the form
survives, clean validates and form_valid saves the new PaymentDispute with
raised_by = request.user. `newId` stands for the database-assigned primary
key. -/
def disputeCreate (st : DbState) (requester : ℕ) (payment : Payment)
    (raisedAgainst : ℕ) (category severity description : String) (newId : ℕ) :
    DbState × DisputeOutcome :=
  match disputeFormInit (some requester) with
  | .error e => (st, .formError e)
  | .ok _ =>
      match disputeFormClean payment.payerId payment.recipientId raisedAgainst requester with
      | .error e => (st, .formError e)
      | .ok _ =>
          let d : Dispute :=
            { id := newId, paymentId := payment.id, projectId := payment.projectId
              raisedById := requester, raisedAgainstId := raisedAgainst
              category := category, severity := severity, description := description }
          ({ st with disputes := st.disputes ++ [d] }, .created d)

/-! ## Bid acceptance (projects/views.py BidAcceptView) -/

/-- The columns of the Bid model (projects/models.py class Bid). There is
no `rejected_at` column. -/
def bidModelColumns : List String :=
  ["id", "project", "artisan", "amount", "timeline", "proposal", "notes",
   "status", "submitted_at", "updated_at", "accepted_at"]

/-- Outcome of BidAcceptView.post. -/
inductive AcceptBidOutcome
  | notFound
  | notOpenForBidding
  | fieldErrorRolledBack (column : String)
  | accepted
deriving DecidableEq, Repr

/-- Kwarg names of the queryset update in BidAcceptView.post line 641:
`other_bids.update(status='rejected', rejected_at=timezone.now())`. -/
def rejectSiblingsUpdateKwargs : List String :=
  ["status", "rejected_at"]

/-- BidAcceptView.post (projects/views.py lines 616-647). The body runs
under `@transaction.atomic`. The assignment
`project.final_budget = bid.amount` sets a plain Python attribute —
Project has no `final_budget` column — so no price reaches the database
and `final_price` stays as it was. The queryset update rejecting sibling
bids names the column `rejected_at`, which Bid does not define; Django
raises FieldError while building the UPDATE, and the atomic block rolls
every write of the request back. -/
def bidAcceptPost (st : DbState) (now : ℕ) (bidId : ℕ) : DbState × AcceptBidOutcome :=
  match getBid st bidId with
  | none => (st, .notFound)
  | some bid =>
      match getProject st bid.projectId with
      | none => (st, .notFound)
      | some project =>
          if project.status ≠ "posted" then (st, .notOpenForBidding)
          else
            let project1 : Project :=
              { project with assignedToId := some bid.artisanId
                             assignedAt := some now, status := "assigned" }
            let st1 := projectSave st project1 now
            let bid1 : Bid := { bid with status := "accepted", acceptedAt := some now }
            let st2 := { st1 with bids := replaceBid st1.bids bid1 }
            if rejectSiblingsUpdateKwargs.all (fun k => bidModelColumns.contains k) then
              let st3 :=
                { st2 with bids := st2.bids.map fun b =>
                    if b.projectId = project.id ∧ b.id ≠ bid.id then
                      { b with status := "rejected" }
                    else b }
              (st3, .accepted)
            else
              (st, .fieldErrorRolledBack "rejected_at")

/-! ## Payment retry (payments/views.py retry_payment) -/

/-- Result of MpesaClient.stk_push as consumed by the retry endpoint. -/
inductive StkResult
  | accepted (checkoutRequestId : String)
  | rejected (errorMessage : String)
deriving DecidableEq, Repr

/-- Outcome of the retry endpoint. -/
inductive RetryOutcome
  | permissionDenied
  | cannotRetry
  | retried
  | gatewayFailed (msg : String)
  | phoneMissing
  | methodNotSupported
deriving DecidableEq, Repr

/-- retry_payment (payments/views.py lines 652-712). The requester's
identity check, the payer's profile phone and the gateway's stk_push
response are inputs; the gateway call happens only on the path that
reaches it. On gateway acceptance the payment stores the fresh checkout
request id, moves to "processing" and increments retry_count; every other
path leaves the payment row untouched. -/
def retry_payment (p : Payment) (requesterIsPayer : Bool) (phone : Option String)
    (stk : StkResult) : Payment × RetryOutcome :=
  if requesterIsPayer = false then (p, .permissionDenied)
  else if p.status ≠ "failed" ∧ p.status ≠ "cancelled" then (p, .cannotRetry)
  else if p.paymentMethod = "mpesa" then
    match phone with
    | some _ =>
        match stk with
        | .accepted cid =>
            (paymentSaveRow
               { p with mpesaCode := cid, status := "processing"
                        retryCount := p.retryCount + 1 },
             .retried)
        | .rejected msg => (p, .gatewayFailed msg)
    | none => (p, .phoneMissing)
  else (p, .methodNotSupported)

/-! ## Concrete scenario fixtures -/

/-- Stand-in for the external hmac-sha256 hex digest; the modelled runs
use the development settings, whose validation path never reaches it. -/
def hmacHexStub : String → String → String := fun _ _ => ""

/-- Development settings: no validation key configured, DEBUG on, so the
signature check is skipped for any non-empty signature header. -/
def devSettings : MpesaSettings := { validationKey := "", debug := true }

def c6Wallet : Wallet := { userId := 7, balance := 30000 }

def c6State : DbState := { wallets := [c6Wallet] }

def c7Payment : Payment :=
  { id := 11, payerId := 1, recipientId := 2, amount := 1000, status := "completed" }

def c7State : DbState := { payments := [c7Payment] }

def c4Project : Project :=
  { id := 10, homeownerId := 1, status := "posted", budgetMin := 5000, budgetMax := 8000 }

def c4Bid1 : Bid := { id := 21, projectId := 10, artisanId := 4, amount := 6000 }

def c4Bid2 : Bid := { id := 22, projectId := 10, artisanId := 5, amount := 7000 }

def c4State : DbState := { projects := [c4Project], bids := [c4Bid1, c4Bid2] }

def c8CashPayment : Payment :=
  { id := 3, payerId := 1, recipientId := 2, amount := 500,
    paymentMethod := "cash", status := "failed", retryCount := 0 }

def c8MpesaPayment : Payment :=
  { id := 4, payerId := 1, recipientId := 2, amount := 500,
    paymentMethod := "mpesa", status := "failed", retryCount := 1 }

def c1Payment : Payment :=
  { id := 1, transactionId := "MJL-C1TEST", payerId := 1, recipientId := 2,
    amount := 1000, serviceFee := 50, netAmount := 950,
    paymentMethod := "mpesa", status := "failed",
    mpesaCode := "ws_CO_191220191020363925" }

def c1Wallet : Wallet := { userId := 2, balance := 0 }

def c1State : DbState := { payments := [c1Payment], wallets := [c1Wallet] }

def c1Request : CallbackRequest :=
  { signatureHeader := "sig", rawBody := "",
    body := .parsed
      { merchantRequestId := some "29115-34620561-1"
        checkoutRequestId := some "ws_CO_191220191020363925"
        resultCode := some 0
        resultDesc := some "The service request is processed successfully."
        items := some
          [ { name := some "Amount", value := some (.num 1000) },
            { name := some "MpesaReceiptNumber", value := some (.str "NLJ7RT61SV") } ] } }

def c2Payment : Payment :=
  { id := 2, transactionId := "MJL-C2TEST", payerId := 1, recipientId := 2,
    amount := 1000, serviceFee := 50, netAmount := 950,
    paymentMethod := "mpesa", status := "processing",
    mpesaCode := "ws_CO_27072025district01" }

def c2Wallet : Wallet := { userId := 2, balance := 0 }

def c2State : DbState := { payments := [c2Payment], wallets := [c2Wallet] }

def c2Callback : StkCallbackJson :=
  { checkoutRequestId := some "ws_CO_27072025district01"
    resultCode := some 0
    resultDesc := some "Processed successfully."
    items := some
      [ { name := some "Amount", value := some (.num 1000) },
        { name := some "MpesaReceiptNumber", value := some (.str "QGH7RT61XY") } ] }

def c2Request : CallbackRequest :=
  { signatureHeader := "sig", rawBody := "", body := .parsed c2Callback }

def c9Payment : Payment :=
  { id := 5, transactionId := "MJL-C9TEST", payerId := 1, recipientId := 2,
    amount := 700, paymentMethod := "mpesa", status := "processing",
    mpesaCode := "ws_CO_abc" }

def c9State : DbState := { payments := [c9Payment] }

/-- A signed request whose body is valid JSON carrying none of the
expected stkCallback fields (for instance an empty JSON object body). -/
def c9EmptyFieldsRequest : CallbackRequest :=
  { signatureHeader := "sig", rawBody := "\x7b\x7d", body := .parsed {} }

/-- The database state reached by the success branch after the payment
save and the milestone save, for a payment whose milestone row was found
as `m`: packaging definition used to state the milestone-autocompletion
theorem. -/
def successMilestoneState (st : DbState) (p : Payment) (meta : List (String × JVal))
    (desc : String) (now : ℕ) (m : Milestone) : DbState :=
  (milestoneSave (paymentSave st (successRow p meta desc now) now)
    { m with status := "paid", approvedAt := some now } now).1

/-- Counterexample fixture: a project in "assigned" whose only milestone
was marked "completed" by the artisan but never paid. -/
def c3HookProject : Project := { id := 7, status := "assigned" }

def c3HookMilestone : Milestone := { id := 71, projectId := 7, status := "completed" }

def c3HookState : DbState :=
  { milestones := [c3HookMilestone], projects := [c3HookProject] }

/-- Witness fixture: a two-milestone project in "in_progress" whose first
milestone is already "paid"; the success callback pays the second. -/
def c3Project : Project := { id := 8, status := "in_progress" }

def c3MilestoneA : Milestone := { id := 81, projectId := 8, status := "paid" }

def c3MilestoneB : Milestone := { id := 82, projectId := 8, status := "approved" }

def c3Payment : Payment :=
  { id := 6, payerId := 1, recipientId := 2, amount := 400,
    paymentMethod := "mpesa", status := "processing",
    projectId := some 8, milestoneId := some 82 }

def c3State : DbState :=
  { payments := [c3Payment], milestones := [c3MilestoneA, c3MilestoneB],
    projects := [c3Project] }

/-- The milestone row as found after the payment save (the pre_save signal
has already flipped it to "paid"). -/
def c3FoundMilestone : Milestone := { c3MilestoneB with status := "paid" }

/-! ## Theorems -/

/-- C5: for every input string, phone normalization strips all non-digit
characters, rejects the input if the resulting digit count is outside
[9,12], replaces a single leading '0' with the country code 254, accepts a
number already starting with the country code as-is, prepends the country
code to an exactly-9-digit number, and rejects everything else; in
particular "0712345678" normalizes to "254712345678" and the 8-digit
"12345678" is rejected. -/
theorem c5_phone_normalization :
    (∀ s : String, format_phone_number s = phoneRuleFromSpec s)
    ∧ format_phone_number "0712345678" = some "254712345678"
    ∧ format_phone_number "12345678" = none := by
  refine ⟨fun s => ?_, by decide, by decide⟩
  simp only [format_phone_number, phoneRuleFromSpec]
  split_ifs <;> first | rfl | omega


/-- Helper: saving a project whose status is already "completed" is a
plain row write — the auto-completion hook's guard ignores it. -/
theorem projectSave_completed (st : DbState) (pr : Project) (now : ℕ)
    (h : pr.status = "completed") :
    projectSave st pr now = { st with projects := replaceProject st.projects pr } := by
  unfold projectSave update_project_status_on_save
  simp [h]

/-- C10: for every callback request, if the request lacks an
X-MPesa-Signature header, or if no validation secret is configured and the
service is not running in debug mode, the callback handler returns a
client-error (400) response and performs no database mutation, whatever
the body contains. -/
theorem c10_unsigned_callback_rejected (hmacHex : String → String → String)
    (settings : MpesaSettings) (req : CallbackRequest) (now : ℕ) (st : DbState)
    (h : req.signatureHeader = "" ∨ (settings.validationKey = "" ∧ settings.debug = false)) :
    ∃ msg, process_mpesa_callback hmacHex settings req now st = (st, .sigError 400 msg) := by
  rcases h with h | ⟨hk, hd⟩
  · exact ⟨"Missing signature",
      by simp [process_mpesa_callback, validate_callback_signature, h]⟩
  · by_cases hs : req.signatureHeader = ""
    · exact ⟨"Missing signature",
        by simp [process_mpesa_callback, validate_callback_signature, hs]⟩
    · exact ⟨"Validation key not configured",
        by simp [process_mpesa_callback, validate_callback_signature, hs, hk, hd]⟩

/-- Witness for C10: a production-mode deployment with no configured
secret rejects even a signed request with a well-formed success body. -/
theorem c10_unsigned_callback_rejected_witness :
    ∃ msg,
      process_mpesa_callback hmacHexStub { validationKey := "", debug := false }
        { signatureHeader := "sig",
          body := .parsed { resultCode := some 0, checkoutRequestId := some "X" } }
        0 {} = ({}, .sigError 400 msg) :=
  c10_unsigned_callback_rejected hmacHexStub _ _ 0 {} (Or.inr ⟨rfl, rfl⟩)

/-- C6: a withdrawal whose amount is below the 100 minimum or above the
50,000 maximum is rejected with the ledger untouched; a withdrawal whose
amount exceeds the wallet's available balance fails with the
insufficient-funds error, leaving the wallet unchanged and recording no
Transaction. -/
theorem c6_withdrawal_bounds (st : DbState) (uid : ℕ) (a : ℚ)
    (method details : String) (tid : ℕ) :
    ((a < 100 ∨ a > 50000) →
        (initiateWithdrawal st uid a method details tid).1 = st ∧
        ∃ e, (initiateWithdrawal st uid a method details tid).2 = .error e)
    ∧ (∀ w, getWallet st uid = some w → 100 ≤ a → w.availableBalance < a →
        initiateWithdrawal st uid a method details tid = (st, .error .insufficientFunds)) := by
  constructor
  · intro h
    unfold initiateWithdrawal clean_amount
    by_cases h1 : a < 100
    · simp [h1]
    · have h5 : a > 50000 := by
        rcases h with h | h
        · exact absurd h h1
        · exact h
      have h2 : ¬ a ≤ 0 := by linarith
      simp only [h1, if_false, h2, if_false, if_neg h1, if_neg h2]
      cases hw : getWallet st uid with
      | none => simp
      | some w =>
          by_cases h3 : a > w.availableBalance
          · simp [h3]
          · simp [h3, h5]
  · intro w hw h100 hav
    unfold initiateWithdrawal clean_amount
    rw [hw]
    have h1 : ¬ a < 100 := by linarith
    have h2 : ¬ a ≤ 0 := by linarith
    simp [h1, h2, hav]

/-- Witness for C6: withdrawing 40,000 from a wallet with available
balance 30,000 fails with insufficient funds and an unchanged ledger;
withdrawing 60,000 is likewise rejected without touching the ledger. -/
theorem c6_withdrawal_bounds_witness :
    initiateWithdrawal c6State 7 40000 "mpesa" "" 1 = (c6State, .error .insufficientFunds)
    ∧ (initiateWithdrawal c6State 7 60000 "mpesa" "" 1).1 = c6State := by
  constructor
  · exact (c6_withdrawal_bounds c6State 7 40000 "mpesa" "" 1).2 c6Wallet rfl
      (by norm_num) (by norm_num [c6Wallet, Wallet.availableBalance])
  · exact ((c6_withdrawal_bounds c6State 7 60000 "mpesa" "" 1).1 (Or.inr (by norm_num))).1

/-- C7 (code_bug evidence): the party validation of DisputeForm.clean does
implement the claimed rule — a raised_against who is neither payer nor
recipient, or who is the submitter, is rejected — but dispute creation
never reaches it: DisputeForm's field construction references the
unimported name Q, so the operation fails with NameError and no
PaymentDispute row is created, for valid and invalid parties alike. -/
theorem c7_dispute_name_error :
    disputeCreate c7State 1 c7Payment 3 "payment" "medium" "d" 99
      = (c7State, .formError (.nameError "Q"))
    ∧ disputeFormClean 1 2 3 1 = .error .invalidPartyNotOnPayment
    ∧ disputeFormClean 1 2 1 1 = .error .invalidPartySelf
    ∧ disputeFormClean 1 2 2 1 = .ok () := ⟨rfl, rfl, rfl, rfl⟩

/-- C4 (code_bug evidence): accepting the 6000 bid on a posted project
with bids of 6000 and 7000 does not assign the project — the sibling-bid
update names the non-existent column rejected_at, Django raises FieldError
and the atomic block rolls back, leaving the project "posted" with no
final price and both bids "pending". -/
theorem c4_accept_bid_field_error :
    bidAcceptPost c4State 77 21 = (c4State, .fieldErrorRolledBack "rejected_at")
    ∧ (getProject (bidAcceptPost c4State 77 21).1 10).map Project.status = some "posted"
    ∧ (getProject (bidAcceptPost c4State 77 21).1 10).map Project.finalPrice = some none
    ∧ (getBid (bidAcceptPost c4State 77 21).1 21).map Bid.status = some "pending"
    ∧ (getBid (bidAcceptPost c4State 77 21).1 22).map Bid.status = some "pending" :=
  ⟨rfl, rfl, rfl, rfl, rfl⟩

/-- C8 counterexample: a Payment in status "failed" — a retry-permitted
state by the claim — with payment method "cash" is rejected by the retry
endpoint even with a phone on file and a willing gateway: retry_count
stays 0 and no dispatch happens, refuting "in which case it increments
retry_count and re-runs dispatch". -/
theorem c8_retry_counterexample :
    retry_payment c8CashPayment true (some "0712345678") (.accepted "ws_CO_NEW")
      = (c8CashPayment, .methodNotSupported)
    ∧ (retry_payment c8CashPayment true (some "0712345678") (.accepted "ws_CO_NEW")).1.retryCount
      = 0 := ⟨rfl, rfl⟩

/-- C8 (amended): retry is rejected, with the payment unchanged, from any
status other than "failed" or "cancelled"; from those two statuses, an
mpesa payment whose payer has a phone and whose fresh dispatch is accepted
by the gateway stores the fresh correlation id, moves to "processing" and
increments retry_count; a non-mpesa payment is rejected unchanged. -/
theorem c8_retry_guard (p : Payment) (phone : Option String) (stk : StkResult) :
    (p.status ≠ "failed" ∧ p.status ≠ "cancelled" →
        retry_payment p true phone stk = (p, .cannotRetry))
    ∧ (∀ ph cid, (p.status = "failed" ∨ p.status = "cancelled") →
        p.paymentMethod = "mpesa" → phone = some ph → stk = .accepted cid →
        retry_payment p true phone stk =
          (paymentSaveRow
            { p with mpesaCode := cid, status := "processing"
                     retryCount := p.retryCount + 1 },
           .retried))
    ∧ ((p.status = "failed" ∨ p.status = "cancelled") → p.paymentMethod ≠ "mpesa" →
        retry_payment p true phone stk = (p, .methodNotSupported)) := by
  refine ⟨fun h => ?_, fun ph cid hs hm hph hstk => ?_, fun hs hm => ?_⟩
  · simp [retry_payment, h]
  · have h2 : ¬ (p.status ≠ "failed" ∧ p.status ≠ "cancelled") := by
      rcases hs with hs | hs <;> simp [hs]
    simp [retry_payment, h2, hm, hph, hstk]
  · have h2 : ¬ (p.status ≠ "failed" ∧ p.status ≠ "cancelled") := by
      rcases hs with hs | hs <;> simp [hs]
    simp [retry_payment, h2, hm]

/-- Witness for C8: a failed mpesa payment with a phone on file, whose
fresh dispatch the gateway accepts, moves to "processing" with
retry_count bumped from 1 to 2 and the fresh correlation id stored; and a
completed payment is rejected unchanged. -/
theorem c8_retry_guard_witness :
    retry_payment c8MpesaPayment true (some "254712345678") (.accepted "ws_CO_FRESH")
      = (paymentSaveRow
          { c8MpesaPayment with mpesaCode := "ws_CO_FRESH", status := "processing"
                                retryCount := 2 },
         .retried)
    ∧ retry_payment { c8MpesaPayment with status := "completed" } true
        (some "254712345678") (.accepted "ws_CO_FRESH")
      = ({ c8MpesaPayment with status := "completed" }, .cannotRetry) := by
  constructor
  · exact (c8_retry_guard c8MpesaPayment (some "254712345678")
      (.accepted "ws_CO_FRESH")).2.1 "254712345678" "ws_CO_FRESH" (Or.inl rfl) rfl rfl rfl
  · exact (c8_retry_guard { c8MpesaPayment with status := "completed" }
      (some "254712345678") (.accepted "ws_CO_FRESH")).1 (by decide)

/-- Helper: with a true signature check, a parsed body whose ResultCode is
0 and a lookup finding payment p, the handler runs the success branch. -/
theorem callback_success_dispatch (hmacHex : String → String → String)
    (settings : MpesaSettings) (req : CallbackRequest) (now : ℕ) (st : DbState)
    (cb : StkCallbackJson) (p : Payment)
    (hsig : (validate_callback_signature hmacHex settings req).1 = true)
    (hbody : req.body = .parsed cb)
    (hrc : cb.resultCode = some 0)
    (hfind : findPaymentForCallback st.payments (cb.checkoutRequestId.getD "")
        (cb.merchantRequestId.getD "") = .found p) :
    process_mpesa_callback hmacHex settings req now st
      = processSuccess st p (buildMetadata (cb.items.getD [])) (cb.resultDesc.getD "") now := by
  unfold process_mpesa_callback
  simp only [hsig, hbody, hrc, hfind, Option.getD_some]
  simp

/-- Helper: a payment save whose row references no milestone reduces to
the plain row write. -/
theorem paymentSave_no_milestone (st : DbState) (p : Payment) (now : ℕ)
    (h : p.milestoneId = none) :
    paymentSave st p now
      = { st with payments := replacePayment st.payments (paymentSaveRow p) } := by
  unfold paymentSave
  cases hfind : st.payments.find? fun q => q.id = p.id with
  | none => simp
  | some o =>
      by_cases hs : o.status ≠ p.status ∧ p.status = "completed"
      · simp [hs, h]
      · simp [hs]

/-- C1 (code_bug evidence): the handler holds no terminal-state guard and
performs no ledger operation. A success callback for a payment already in
the terminal state "failed" re-processes it into "completed"; the wallets
and the transaction ledger are untouched by any number of deliveries (so
N deliveries produce 0 ledger credits, not exactly 1); and a second
delivery of the same payload re-applies the side effects, rewriting
completed_at. -/
theorem c1_terminal_replay_not_noop :
    (getPayment c1State 1).map Payment.status = some "failed"
    ∧ (getPayment (process_mpesa_callback hmacHexStub devSettings c1Request 100 c1State).1 1).map
        Payment.status = some "completed"
    ∧ (process_mpesa_callback hmacHexStub devSettings c1Request 100 c1State).2
        = .ack 200 0 "Success"
    ∧ (process_mpesa_callback hmacHexStub devSettings c1Request 100 c1State).1.wallets
        = c1State.wallets
    ∧ (process_mpesa_callback hmacHexStub devSettings c1Request 100 c1State).1.transactions
        = c1State.transactions
    ∧ (getPayment (process_mpesa_callback hmacHexStub devSettings c1Request 200
          (process_mpesa_callback hmacHexStub devSettings c1Request 100 c1State).1).1 1).map
        Payment.completedAt = some (some 200) :=
  ⟨rfl, rfl, rfl, rfl, rfl, rfl⟩

/-- C2 (amended): a first-time success callback sets the payment's status
to "completed" and records the gateway receipt, and the fee computation at
creation gives service_fee 50 and net_amount 950 for amount 1000; but the
handler credits no wallet — the wallets and the transaction ledger are
exactly those of the pre-callback state. -/
theorem c2_success_callback_effects (hmacHex : String → String → String)
    (settings : MpesaSettings) (req : CallbackRequest) (now : ℕ) (st : DbState)
    (cb : StkCallbackJson) (p : Payment)
    (hsig : (validate_callback_signature hmacHex settings req).1 = true)
    (hbody : req.body = .parsed cb)
    (hrc : cb.resultCode = some 0)
    (hfind : findPaymentForCallback st.payments (cb.checkoutRequestId.getD "")
        (cb.merchantRequestId.getD "") = .found p)
    (hmil : p.milestoneId = none) :
    process_mpesa_callback hmacHex settings req now st
      = ({ st with payments :=
              replacePayment st.payments
                              (paymentSaveRow (successRow p (buildMetadata (cb.items.getD []))
                                (cb.resultDesc.getD "") now)) },
         .ack 200 0 "Success")
    ∧ (successRow p (buildMetadata (cb.items.getD [])) (cb.resultDesc.getD "") now).status
        = "completed"
    ∧ (successRow p (buildMetadata (cb.items.getD [])) (cb.resultDesc.getD "") now).mpesaReceipt
        = (metaGet (buildMetadata (cb.items.getD [])) "MpesaReceiptNumber" (.str "")).text
    ∧ (process_mpesa_callback hmacHex settings req now st).1.wallets = st.wallets
    ∧ (process_mpesa_callback hmacHex settings req now st).1.transactions = st.transactions
    ∧ paymentCreateFee 1000 = (50, 950) := by
  have hrow : (successRow p (buildMetadata (cb.items.getD [])) (cb.resultDesc.getD "") now).milestoneId
      = none := by
    simp [successRow, hmil]
  have hmain : process_mpesa_callback hmacHex settings req now st
      = ({ st with payments :=
              replacePayment st.payments
                              (paymentSaveRow (successRow p (buildMetadata (cb.items.getD []))
                                (cb.resultDesc.getD "") now)) },
         .ack 200 0 "Success") := by
    rw [callback_success_dispatch hmacHex settings req now st cb p hsig hbody hrc hfind]
    cases hpj : (successRow p (buildMetadata (cb.items.getD [])) (cb.resultDesc.getD "") now).projectId with
    | none => simp [processSuccess, hpj, hrow, paymentSave_no_milestone _ _ _ hrow]
    | some pj => simp [processSuccess, hpj, hrow, paymentSave_no_milestone _ _ _ hrow]
  refine ⟨hmain, by simp [successRow], rfl, ?_, ?_, by norm_num [paymentCreateFee]⟩
  · rw [hmain]
  · rw [hmain]

/-- Witness for C2: scenario A — a payment of 1000 with fee 50 in status
"processing" receives one success callback; it completes with the receipt
recorded, and the recipient's wallet (balance 0) is not credited. -/
theorem c2_success_callback_effects_witness :
    process_mpesa_callback hmacHexStub devSettings c2Request 100 c2State
      = ({ c2State with payments :=
              replacePayment c2State.payments
                              (paymentSaveRow (successRow c2Payment
                                (buildMetadata (c2Callback.items.getD []))
                                "Processed successfully." 100)) },
         .ack 200 0 "Success")
    ∧ (process_mpesa_callback hmacHexStub devSettings c2Request 100 c2State).1.wallets
      = c2State.wallets := by
  constructor
  · have h := c2_success_callback_effects hmacHexStub devSettings c2Request 100 c2State
      c2Callback c2Payment rfl rfl rfl rfl rfl
    exact h.1
  · have h := c2_success_callback_effects hmacHexStub devSettings c2Request 100 c2State
      c2Callback c2Payment rfl rfl rfl rfl rfl
    exact h.2.2.2.1

/-- C2 counterexample: in scenario A the claim requires the recipient's
wallet to end up credited with 950; after the success callback the
payment is "completed" but the recipient's wallet balance is still 0, not
950. -/
theorem c2_wallet_not_credited_counterexample :
    (getPayment (process_mpesa_callback hmacHexStub devSettings c2Request 100 c2State).1 2).map
        Payment.status = some "completed"
    ∧ (getWallet (process_mpesa_callback hmacHexStub devSettings c2Request 100 c2State).1 2).map
        Wallet.balance = some 0
    ∧ ¬ (getWallet (process_mpesa_callback hmacHexStub devSettings c2Request 100 c2State).1 2).map
          Wallet.balance = some (950 : ℚ) :=
  ⟨rfl, rfl, by decide⟩

/-- C9 counterexample: a signed, well-formed JSON body carrying none of
the expected fields is not acknowledged with a distinct malformed outcome:
with one payment on file the empty checkout id matches it by substring,
the missing ResultCode defaults to failure, and the handler marks that
payment "failed" and acknowledges plain "Success". -/
theorem c9_missing_fields_counterexample :
    (process_mpesa_callback hmacHexStub devSettings c9EmptyFieldsRequest 100 c9State).2
      = .ack 200 0 "Success"
    ∧ (getPayment (process_mpesa_callback hmacHexStub devSettings c9EmptyFieldsRequest 100
        c9State).1 5).map Payment.status = some "failed" :=
  ⟨rfl, rfl⟩

/-- C9 (amended): with a valid signature the handler always answers with a
JSON acknowledgement and never propagates an exception (the embedding is a
total function); an unparseable body gets the distinct "Invalid JSON"
outcome with no state change; a payload matching no payment is logged and
acknowledged with ResultCode 0 and no state change; but a parseable body
with missing fields is processed as an ordinary callback whose ResultCode
defaults to failure, not as malformed. -/
theorem c9_callback_tolerance (hmacHex : String → String → String)
    (settings : MpesaSettings) (req : CallbackRequest) (now : ℕ) (st : DbState)
    (hsig : (validate_callback_signature hmacHex settings req).1 = true) :
    (req.body = .malformed →
      process_mpesa_callback hmacHex settings req now st = (st, .ack 400 1 "Invalid JSON"))
    ∧ (∀ cb, req.body = .parsed cb →
        findPaymentForCallback st.payments (cb.checkoutRequestId.getD "")
            (cb.merchantRequestId.getD "") = .notFound →
        process_mpesa_callback hmacHex settings req now st
          = (st, .ack 200 0 "Callback received but payment not found")) := by
  constructor
  · intro hb
    simp [process_mpesa_callback, hsig, hb]
  · intro cb hb hfind
    unfold process_mpesa_callback
    simp only [hsig, hb, hfind]
    simp

/-- Witness for C9: an unknown correlation id on an empty database is
acknowledged with ResultCode 0, and a malformed body is acknowledged with
the distinct Invalid JSON outcome. -/
theorem c9_callback_tolerance_witness :
    process_mpesa_callback hmacHexStub devSettings
        { signatureHeader := "sig", body := .parsed { checkoutRequestId := some "ws_CO_none" } }
        0 {} = ({}, .ack 200 0 "Callback received but payment not found")
    ∧ process_mpesa_callback hmacHexStub devSettings
        { signatureHeader := "sig", body := .malformed } 0 {}
      = ({}, .ack 400 1 "Invalid JSON") := by
  constructor
  · exact (c9_callback_tolerance hmacHexStub devSettings
      { signatureHeader := "sig", body := .parsed { checkoutRequestId := some "ws_CO_none" } }
      0 {} rfl).2 { checkoutRequestId := some "ws_CO_none" } rfl rfl
  · exact (c9_callback_tolerance hmacHexStub devSettings
      { signatureHeader := "sig", body := .malformed } 0 {} rfl).1 rfl

/-- C3 counterexample: the post_save hook update_project_status_on_save
completes a project on any save while its status is "assigned" or
"in_progress" as soon as all milestones are merely "completed" — here a
project whose only milestone was never "paid" transitions to "completed"
with completed_at stamped, refuting the only-if direction of the claim. -/
theorem c3_completed_without_paid_counterexample :
    (getProject (projectSave c3HookState c3HookProject 50) 7).map Project.status
      = some "completed"
    ∧ ((projectSave c3HookState c3HookProject 50).milestones.all
        fun m => m.status = "paid") = false
    ∧ (getProject (projectSave c3HookState c3HookProject 50) 7).map Project.completedAt
      = some (some 50) :=
  ⟨rfl, rfl, rfl⟩

/-- C3 (amended): on the payment-callback path the all-milestones-paid
check is re-evaluated after every milestone payment: the paid milestone is
saved as "paid", and — writing st2 for the state after the payment and
milestone saves — if every milestone of the project is then "paid" the
project row is rewritten to "completed" with completed_at stamped
(regardless of the order payments arrived in, since only the resulting
state is consulted), while if some milestone is not yet "paid" the
projects are left exactly as they were. -/
theorem c3_milestone_autocompletion (st : DbState) (p : Payment)
    (meta : List (String × JVal)) (desc : String) (now pjId msId : ℕ) (m : Milestone)
    (hpj : p.projectId = some pjId) (hms : p.milestoneId = some msId)
    (hm : (paymentSave st (successRow p meta desc now) now).milestones.find?
            (fun x => x.id = msId) = some m) :
    (processSuccess st p meta desc now).1.milestones
        = (successMilestoneState st p meta desc now m).milestones
    ∧ ((((successMilestoneState st p meta desc now m).milestones.filter
          fun x => x.projectId = pjId).all fun x => x.status = "paid") = true →
        ∀ pr, (successMilestoneState st p meta desc now m).projects.find?
            (fun x => x.id = pjId) = some pr →
          (processSuccess st p meta desc now).1
            = { successMilestoneState st p meta desc now m with
                projects := replaceProject (successMilestoneState st p meta desc now m).projects
                  { pr with status := "completed", completedAt := some now } })
    ∧ ((((successMilestoneState st p meta desc now m).milestones.filter
          fun x => x.projectId = pjId).all fun x => x.status = "paid") = false →
        (processSuccess st p meta desc now).1 = successMilestoneState st p meta desc now m) := by
  have hp1pj : (successRow p meta desc now).projectId = some pjId := by
    simp [successRow, hpj]
  have hp1ms : (successRow p meta desc now).milestoneId = some msId := by
    simp [successRow, hms]
  have hred : processSuccess st p meta desc now
      = (if (((successMilestoneState st p meta desc now m).milestones.filter
            fun x => x.projectId = pjId).all fun x => x.status = "paid") = true then
          match (successMilestoneState st p meta desc now m).projects.find?
              (fun x => x.id = pjId) with
          | some pr =>
              ({ successMilestoneState st p meta desc now m with
                 projects := replaceProject (successMilestoneState st p meta desc now m).projects
                   { pr with status := "completed", completedAt := some now } },
               .ack 200 0 "Success")
          | none => (successMilestoneState st p meta desc now m, .ack 500 1 "Server error")
        else (successMilestoneState st p meta desc now m, .ack 200 0 "Success")) := by
    unfold processSuccess successMilestoneState
    simp only [hp1pj, hp1ms, hm]
    by_cases hall : (((milestoneSave (paymentSave st (successRow p meta desc now) now)
          { m with status := "paid", approvedAt := some now } now).1.milestones.filter
          fun x => x.projectId = pjId).all fun x => x.status = "paid") = true
    · simp only [hall, if_true]
      cases hpr : (milestoneSave (paymentSave st (successRow p meta desc now) now)
          { m with status := "paid", approvedAt := some now } now).1.projects.find?
          (fun x => x.id = pjId) with
      | none => simp [hpr]
      | some pr => simp [hpr, projectSave_completed]
    · simp [hall]
  refine ⟨?_, ?_, ?_⟩
  · rw [hred]
    by_cases hall : (((successMilestoneState st p meta desc now m).milestones.filter
        fun x => x.projectId = pjId).all fun x => x.status = "paid") = true
    · simp only [hall, if_true]
      cases hpr : (successMilestoneState st p meta desc now m).projects.find?
          (fun x => x.id = pjId) with
      | none => simp [hpr]
      | some pr => simp [hpr]
    · simp [hall]
  · intro hall pr hpr
    rw [hred]
    simp [hall, hpr]
  · intro hall
    rw [hred]
    simp [hall]

/-- Witness for C3: paying the second of two milestones (the first already
"paid") completes the project with completed_at stamped, and the paid
milestone carries status "paid" with approved_at stamped. -/
theorem c3_milestone_autocompletion_witness :
    (processSuccess c3State c3Payment [] "ok" 60).1
      = { successMilestoneState c3State c3Payment [] "ok" 60 c3FoundMilestone with
          projects := replaceProject
            (successMilestoneState c3State c3Payment [] "ok" 60 c3FoundMilestone).projects
            { c3Project with status := "completed", completedAt := some 60 } }
    ∧ (getMilestone (processSuccess c3State c3Payment [] "ok" 60).1 82).map Milestone.status
      = some "paid" := by
  constructor
  · exact (c3_milestone_autocompletion c3State c3Payment [] "ok" 60 8 82 c3FoundMilestone
      rfl rfl rfl).2.1 rfl c3Project rfl
  · rfl

end MjengoLink
